import Mathlib

/-!
Verification of the question-extractor pipeline (shallow embedding).

The definitions below are translated from the Python sources:
  - `cost_tracker.py`        (CostTracker)
  - `config.py`              (section/placeholder regex tables)
  - `pdf_extractor.py`       (find_section_bounds, parse_options,
                              extract_physics_questions_improved)
  - `pdf_extractor_v3.py`    (find_section_bounds, extract_physics_questions_with_answers)
  - `question_validator.py`  (validate_question_completeness)
  - `process_claude.py`      (call_claude_api answer-integrity enforcement)
  - `process_questions_v2.py` (process_questions_in_batches, merge_batches)

External collaborators (the HTTP generation endpoint, PDF reader, file
system) are modelled as explicit function parameters / state components.
Python regex searches used by the code are embedded as executable pattern
matchers over character lists (literal tokens separated by `.*` or `\s+`
gaps, with Python whitespace semantics and case folding where `re.I` is
set in the source).
-/

namespace QuestionExtractor

/-! ### Python string helpers -/

/-- Python `\s` / `str.split()` whitespace class: space, tab, newline,
carriage return, vertical tab, form feed. -/
def pyIsSpace (c : Char) : Bool :=
  c == ' ' || c == '\t' || c == '\n' || c == '\r' || c == '\x0b' || c == '\x0c'

/-- Python `str.strip()`: remove leading and trailing whitespace. -/
def pyStrip (s : String) : String :=
  ⟨((s.toList.dropWhile pyIsSpace).reverse.dropWhile pyIsSpace).reverse⟩

/-- Python `str.split()` on a character list: split on whitespace runs,
dropping empty words. -/
def pyWordsAux : List Char → List Char → List (List Char)
  | [], acc => if acc.isEmpty then [] else [acc.reverse]
  | c :: cs, acc =>
    if pyIsSpace c then
      if acc.isEmpty then pyWordsAux cs [] else acc.reverse :: pyWordsAux cs []
    else pyWordsAux cs (c :: acc)

/-- Python `str.split()` (no separator argument). -/
def pyWords (s : String) : List (List Char) := pyWordsAux s.data []

/-- Python space-separated join of words. -/
def joinSpace : List (List Char) → List Char
  | [] => []
  | [w] => w
  | w :: ws => w ++ ' ' :: joinSpace ws

/-- Python join-of-split normalization: collapse all whitespace runs to single
spaces and strip the ends.  Used by the extractors to clean captured text. -/
def collapseWs (s : String) : String := ⟨joinSpace (pyWords s)⟩

/-- Python `str.lower()` (ASCII case folding as used by the validator). -/
def pyLower (s : String) : String := ⟨s.data.map Char.toLower⟩

/-- Python `str.upper()` (ASCII case folding, for `re.I` matching). -/
def pyUpper (s : String) : String := ⟨s.data.map Char.toUpper⟩

/-- Python `str.startswith(pre)`. -/
def pyStartsWith (s pre : String) : Bool := pre.data.isPrefixOf s.data

/-! ### Embedded regex-search machinery

A pattern is a first literal token followed by further tokens, each
separated from the previous one by a gap: `.*` (any characters except
newline, since `re.DOTALL` is not set on these patterns) or `\s+` (one
or more Python whitespace characters).  A token is a list of character
predicates, so fixed literals and character classes such as `[A-D]` are
both expressible.  `patSearch` is Python `pattern.search(hay) is not None`. -/

/-- Gap between two literal tokens of an embedded regex. -/
inductive Gap where
  | anyNoNl  -- `.*` without DOTALL: any characters except a newline
  | ws1      -- `\s+`: one or more whitespace characters
deriving Repr, DecidableEq

/-- Does a gap accept the given characters? -/
def gapOk : Gap → List Char → Bool
  | .anyNoNl, cs => cs.all (fun c => c ≠ '\n')
  | .ws1, cs => (!cs.isEmpty) && cs.all pyIsSpace

/-- Does the token match at the head of `cs`? -/
def tokMatches : List (Char → Bool) → List Char → Bool
  | [], _ => true
  | _ :: _, [] => false
  | p :: ps, c :: cs => p c && tokMatches ps cs

/-- Match the remaining (gap, token) pairs of a pattern starting at
position `pos` of `hay`. -/
def segMatchFrom (hay : List Char) (pos : Nat) : List (Gap × List (Char → Bool)) → Bool
  | [] => true
  | (g, tok) :: rest =>
    (List.range (hay.length + 1)).any fun j =>
      decide (pos ≤ j) && gapOk g ((hay.drop pos).take (j - pos)) &&
      tokMatches tok (hay.drop j) && segMatchFrom hay (j + tok.length) rest

/-- Embeds `re.search`: does the pattern match anywhere in `hay`? -/
def patSearch (hay : List Char) (first : List (Char → Bool))
    (rest : List (Gap × List (Char → Bool))) : Bool :=
  (List.range (hay.length + 1)).any fun i =>
    tokMatches first (hay.drop i) && segMatchFrom hay (i + first.length) rest

/-- Literal token: each character must match exactly. -/
def lit (s : String) : List (Char → Bool) := s.toList.map (fun c c' => c' == c)

/-- Case-insensitive search (`re.I`): upper-case the haystack and supply
upper-case literals. -/
def reSearchCI (first : String) (rest : List (Gap × String)) (s : String) : Bool :=
  patSearch (pyUpper s).toList (lit first) (rest.map fun gt => (gt.1, lit gt.2))

/-- Python `needle in hay` for strings: contiguous substring test. -/
def containsSub (hay needle : String) : Bool :=
  patSearch hay.toList (lit needle) []

/-! ### `config.py`: pattern tables used by the extractor and validator -/

/-- Table `SECTION_START_PATTERNS` from `config.py`:
`PHYSICS`, `SECTION.*A.*PHYSICS`, `Physics\s+Section`, `PART.*A.*PHYSICS`,
all with `re.I`. -/
def SECTION_START_PATTERNS : List (String → Bool) :=
  [ reSearchCI "PHYSICS" [],
    reSearchCI "SECTION" [(.anyNoNl, "A"), (.anyNoNl, "PHYSICS")],
    reSearchCI "PHYSICS" [(.ws1, "SECTION")],
    reSearchCI "PART" [(.anyNoNl, "A"), (.anyNoNl, "PHYSICS")] ]

/-- Table `SECTION_END_PATTERNS` from `config.py`:
`CHEMISTRY`, `BIOLOGY`, `BOTANY`, `ZOOLOGY`, `SECTION.*B`, all `re.I`. -/
def SECTION_END_PATTERNS : List (String → Bool) :=
  [ reSearchCI "CHEMISTRY" [],
    reSearchCI "BIOLOGY" [],
    reSearchCI "BOTANY" [],
    reSearchCI "ZOOLOGY" [],
    reSearchCI "SECTION" [(.anyNoNl, "B")] ]

/-- One placeholder pattern from `config.py`, with its source text (used by
the validator in its error message). -/
structure PlaceholderPat where
  src : String
  first : List (Char → Bool)
  rest : List (Gap × List (Char → Bool))

/-- Embeds `pattern.search(text_lower)`: the validator applies these patterns
case-sensitively to the lowered question text. -/
def PlaceholderPat.matches (p : PlaceholderPat) (s : String) : Bool :=
  patSearch s.toList p.first p.rest

/-- Table `PLACEHOLDER_PATTERNS` from `config.py`.  Note `option\s+[A-D]\s+text`
keeps its upper-case character class exactly as in the source (so it can
never fire on lowered text, as in the Python code). -/
def PLACEHOLDER_PATTERNS : List PlaceholderPat :=
  [ ⟨"placeholder", lit "placeholder", []⟩,
    ⟨"text\\s+here", lit "text", [(.ws1, lit "here")]⟩,
    ⟨"option\\s+[A-D]\\s+text", lit "option",
      [(.ws1, [fun c => decide ('A' ≤ c) && decide (c ≤ 'D')]), (.ws1, lit "text")]⟩,
    ⟨"sample.*question", lit "sample", [(.anyNoNl, lit "question")]⟩,
    ⟨"analysis\\s+not\\s+provided", lit "analysis", [(.ws1, lit "not"), (.ws1, lit "provided")]⟩,
    ⟨"chapter\\s+name\\s+here", lit "chapter", [(.ws1, lit "name"), (.ws1, lit "here")]⟩,
    ⟨"topic\\s+name\\s+here", lit "topic", [(.ws1, lit "name"), (.ws1, lit "here")]⟩ ]

/-! ### `cost_tracker.py`: CostTracker -/

/-- The `CostTracker` dataclass from `cost_tracker.py` (token counts are
non-negative integers). -/
structure CostTracker where
  total_calls : Nat := 0
  input_tokens : Nat := 0
  output_tokens : Nat := 0
  successful_calls : Nat := 0
  failed_calls : Nat := 0
deriving Repr, DecidableEq

/-- Method `CostTracker.record_call` from `cost_tracker.py`. -/
def CostTracker.record_call (t : CostTracker) (input_tokens output_tokens : Nat)
    (success : Bool) : CostTracker :=
  { t with
    total_calls := t.total_calls + 1
    input_tokens := t.input_tokens + input_tokens
    output_tokens := t.output_tokens + output_tokens
    successful_calls := if success then t.successful_calls + 1 else t.successful_calls
    failed_calls := if success then t.failed_calls else t.failed_calls + 1 }

/-- Run a sequence of `record_call` invocations on a tracker. -/
def CostTracker.runCalls (t : CostTracker) (calls : List (Nat × Nat × Bool)) : CostTracker :=
  calls.foldl (fun t c => t.record_call c.1 c.2.1 c.2.2) t

/-- Sum of the input-token arguments of a call sequence. -/
def sumInputs (calls : List (Nat × Nat × Bool)) : Nat :=
  (calls.map (fun c => c.1)).sum

/-- Sum of the output-token arguments of a call sequence. -/
def sumOutputs (calls : List (Nat × Nat × Bool)) : Nat :=
  (calls.map (fun c => c.2.1)).sum

/-! ### Data model: structured questions (the JSON dicts built from the
generation service's response).  Fields that the Python code accesses via
`dict.get` and that may be absent are `Option`-valued; `stepByStep`,
chapter/topic/conceptTags are read with defaults `[]` / `''` and are
modelled as total with those defaults standing for absence. -/

/-- One entry of the `options` array of a structured question. -/
structure OptionEntry where
  id : String
  text : String
  isCorrect : Bool
deriving Repr, DecidableEq

/-- The `classification` sub-object (only the fields the validator reads). -/
structure Classification where
  chapter : String
  topic : String
  conceptTags : List String
deriving Repr, DecidableEq

/-- One entry of the `stepByStep` array (the validator only counts them). -/
structure SolutionStep where
  title : String
  content : String
deriving Repr, DecidableEq

/-- A structured question record as produced by the generation client. -/
structure StructuredQuestion where
  id : Option String
  questionNumber : Option Nat
  questionText : Option String
  options : Option (List OptionEntry)
  correctOption : Option String
  classification : Option Classification
  stepByStep : List SolutionStep
deriving Repr, DecidableEq

/-! ### `pdf_extractor.py` / `pdf_extractor_v3.py`: `find_section_bounds`

The function is identical in both files.  It takes the page texts and
scans them against the configured pattern tables; we parameterise over
the tables (lists of page-text matchers) exactly as the source reads
them from `config.py`. -/

/-- Function `find_section_bounds` from `pdf_extractor.py` lines 45-80 (and
`pdf_extractor_v3.py` lines 43-78): first page matching any start
pattern (else 0), then the first later page matching any end pattern
(else the page count). -/
def find_section_bounds (startPats endPats : List (String → Bool))
    (pages : List String) : Nat × Nat :=
  let start_page :=
    match pages.findIdx? (fun p => startPats.any (fun m => m p)) with
    | some i => i
    | none => 0
  let end_page :=
    match (pages.drop (start_page + 1)).findIdx? (fun p => endPats.any (fun m => m p)) with
    | some j => start_page + 1 + j
    | none => pages.length
  (start_page, end_page)

/-! ### `pdf_extractor.py`: `parse_options`

`OPTION_PATTERN.findall(text)` yields (digit, text) capture pairs; the
pure post-processing of those matches (lines 94-122) is embedded here
with the match list as input. -/

/-- The fixed numeric-to-letter option map `{'1':'A','2':'B','3':'C','4':'D'}`
(`option_map` / `num_to_letter` in the sources); any other digit is absent. -/
def num_to_letter (n : Nat) : Option String :=
  if n = 1 then some "A"
  else if n = 2 then some "B"
  else if n = 3 then some "C"
  else if n = 4 then some "D"
  else none

/-- An option entry as built by `parse_options`: an id letter and a text. -/
structure ParsedOption where
  id : String
  text : String
deriving Repr, DecidableEq

/-- The recognised options: matches whose digit is in the map, in order
(`options.append(...)` loop of `parse_options`). -/
def recognizedOptions (ms : List (Nat × String)) : List ParsedOption :=
  ms.filterMap fun m =>
    (num_to_letter m.1).map fun l => { id := l, text := pyStrip m.2 }

/-- The entry appended by the padding loop when the list currently has
`n` entries: id `option_map[str(n + 1)]`, empty text. -/
def padEntry (n : Nat) : ParsedOption :=
  { id := (num_to_letter (n + 1)).getD "", text := "" }

/-- The `while len(options) < 4` padding loop of `parse_options`, written
with an explicit iteration bound (each pass appends one entry, so four
passes always suffice). -/
def padOptionsGo : Nat → List ParsedOption → List ParsedOption
  | 0, opts => opts
  | fuel + 1, opts =>
    if opts.length < 4 then padOptionsGo fuel (opts ++ [padEntry opts.length]) else opts

/-- The padding loop of `parse_options` (`while len(options) < 4`). -/
def padOptions (opts : List ParsedOption) : List ParsedOption :=
  padOptionsGo 4 opts

/-- Function `parse_options` from `pdf_extractor.py` lines 94-122, taking the
regex match list as input. -/
def parse_options (ms : List (Nat × String)) : List ParsedOption :=
  (padOptions (recognizedOptions ms)).take 4

/-! ### `process_claude.py`: `call_claude_api`

The HTTP transport and JSON parsing are external; each attempt of the
retry loop either yields a parsed `StructuredQuestion` or fails (HTTP
error, transport error, or JSON-parse failure), which we model by an
oracle `responses : Nat → Option StructuredQuestion` indexed by the
attempt number.  Lines 236-253 — the answer-integrity enforcement and
`setdefault` calls applied to the parsed result before returning — are
embedded in `claude_postprocess`. -/

/-- Python `dict.setdefault`: keep an existing value, else insert the
default. -/
def dictSetdefault (o : Option α) (v : α) : Option α :=
  match o with
  | some x => some x
  | none => some v

/-- Python `f"{n:03d}"` for a non-negative `n`. -/
def pad3 (n : Nat) : String :=
  if n < 10 then "00" ++ toString n
  else if n < 100 then "0" ++ toString n
  else toString n

/-- Lines 236-250 of `process_claude.py`: if the parsed result's
`correctOption` differs from the PDF answer, overwrite it and recompute
every option's `isCorrect` flag; then `setdefault` the `id`,
`questionNumber`, `questionText` and `correctOption` fields. -/
def claude_postprocess (result : StructuredQuestion) (qnum : Nat) (qtext : String)
    (correct_answer : String) : StructuredQuestion :=
  let result :=
    if result.correctOption ≠ some correct_answer then
      { result with
        correctOption := some correct_answer,
        options := result.options.map
          (List.map fun o => { o with isCorrect := o.id == correct_answer }) }
    else result
  { result with
    id := dictSetdefault result.id ("neet_2024_phy_" ++ pad3 qnum),
    questionNumber := dictSetdefault result.questionNumber qnum,
    questionText := dictSetdefault result.questionText qtext,
    correctOption := dictSetdefault result.correctOption correct_answer }

/-- The retry loop of `call_claude_api` (`for attempt in range(1,
max_retries + 1)`): the first attempt whose response parses is
post-processed and returned; exhausting all attempts returns `None`. -/
def call_claude_go (responses : Nat → Option StructuredQuestion) (qnum : Nat)
    (qtext : String) (correct_answer : String) (attempt : Nat) :
    Nat → Option StructuredQuestion
  | 0 => none
  | remaining + 1 =>
    match responses attempt with
    | some r => some (claude_postprocess r qnum qtext correct_answer)
    | none => call_claude_go responses qnum qtext correct_answer (attempt + 1) remaining

/-- Function `call_claude_api` from `process_claude.py` lines 67-267, for a
question whose `correct_answer` is known (the caller skips questions
without one). -/
def call_claude_api (responses : Nat → Option StructuredQuestion) (max_retries : Nat)
    (qnum : Nat) (qtext : String) (correct_answer : String) : Option StructuredQuestion :=
  call_claude_go responses qnum qtext correct_answer 1 max_retries

/-- A parsed response that disagrees with the PDF answer ("B" instead of
"A"), used as the C1 witness input. -/
def disagreeingResponse : StructuredQuestion :=
  { id := some "neet_2024_phy_007"
    questionNumber := some 7
    questionText := some "What is the SI unit of force?"
    options := some
      [ { id := "A", text := "Joule", isCorrect := false }
      , { id := "B", text := "Newton", isCorrect := true }
      , { id := "C", text := "Watt", isCorrect := false }
      , { id := "D", text := "Pascal", isCorrect := false } ]
    correctOption := some "B"
    classification := some { chapter := "Laws of Motion", topic := "Force",
                             conceptTags := ["force", "units"] }
    stepByStep := [⟨"Step 1", "Recall the unit"⟩, ⟨"Step 2", "Conclude"⟩] }

/-- A parsed response that agrees on `correctOption = "A"` but carries
inconsistent per-option `isCorrect` flags (the flag is on option B). -/
def agreeingInconsistentResponse : StructuredQuestion :=
  { id := some "neet_2024_phy_003"
    questionNumber := some 3
    questionText := some "Which quantity is a vector?"
    options := some
      [ { id := "A", text := "Velocity", isCorrect := false }
      , { id := "B", text := "Speed", isCorrect := true }
      , { id := "C", text := "Mass", isCorrect := false }
      , { id := "D", text := "Time", isCorrect := false } ]
    correctOption := some "A"
    classification := some { chapter := "Motion in a Plane", topic := "Vectors",
                             conceptTags := ["vectors", "kinematics"] }
    stepByStep := [⟨"Step 1", "Definition"⟩, ⟨"Step 2", "Conclude"⟩] }

/-! ### `question_validator.py`: `validate_question_completeness`

The Python function accumulates error strings into one list with an
early return after the required-field check; the appended segments are
independent of one another, so they are embedded as one function per
check, concatenated in source order. -/

/-- The required-field check (`required_fields` loop, lines 68-74). -/
def vErrRequired (q : StructuredQuestion) : List String :=
  (if q.id.isNone then ["Missing required field: id"] else []) ++
  (if q.questionText.isNone then ["Missing required field: questionText"] else []) ++
  (if q.options.isNone then ["Missing required field: options"] else []) ++
  (if q.correctOption.isNone then ["Missing required field: correctOption"] else []) ++
  (if q.classification.isNone then ["Missing required field: classification"] else [])

/-- Question-text length and placeholder checks (lines 77-86). -/
def vErrText (q : StructuredQuestion) : List String :=
  let question_text := q.questionText.getD ""
  (if question_text.length < 50 then
    ["Question text too short: " ++ toString question_text.length ++ " chars"] else []) ++
  (match PLACEHOLDER_PATTERNS.find? (fun p => p.matches (pyLower question_text)) with
   | some p => ["Found placeholder pattern: " ++ p.src]
   | none => [])

/-- Python `set(option_ids) == {'A','B','C','D'}`. -/
def idsFormABCD (opts : List OptionEntry) : Bool :=
  (["A", "B", "C", "D"].all fun l => opts.any fun o => o.id == l) &&
  (opts.all fun o => ["A", "B", "C", "D"].contains o.id)

/-- The per-option placeholder test of lines 99-103:
`'text here' in t or 'option' in t and 'text' in t` (on the lowered
option text; note Python precedence: `or (and)`). -/
def optPlaceholder (o : OptionEntry) : Bool :=
  let t := pyLower o.text
  containsSub t "text here" || (containsSub t "option" && containsSub t "text")

/-- Options checks (lines 89-103). -/
def vErrOptions (q : StructuredQuestion) : List String :=
  let options := q.options.getD []
  if options.length ≠ 4 then
    ["Expected 4 options, got " ++ toString options.length]
  else
    (if !(idsFormABCD options) then
      ["Invalid option IDs: " ++ toString (options.map (fun o => o.id))] else []) ++
    (match options.find? optPlaceholder with
     | some o => ["Placeholder found in option " ++ o.id]
     | none => [])

/-- The `correctOption` membership check (lines 106-108). -/
def vErrCorrect (q : StructuredQuestion) : List String :=
  match q.correctOption with
  | some c =>
    if c ∈ (["A", "B", "C", "D"] : List String) then []
    else ["Invalid correctOption: " ++ c]
  | none => ["Invalid correctOption: None"]

/-- The default for `question.get('classification', {})`: every
sub-field read from an empty dict gets its own default. -/
def emptyClassification : Classification :=
  { chapter := "", topic := "", conceptTags := [] }

/-- Reads the classification sub-dict with per-field defaults. -/
def qClass (q : StructuredQuestion) : Classification :=
  q.classification.getD emptyClassification

/-- Classification checks: chapter, topic, concept tags (lines 111-126). -/
def vErrClass (q : StructuredQuestion) : List String :=
  (if (qClass q).chapter == "" || (pyLower (qClass q).chapter == "unknown")
      || (pyLower (qClass q).chapter == "chapter name here") then
    ["Chapter is missing or placeholder"] else []) ++
  (if (qClass q).topic == "" || (pyLower (qClass q).topic == "unknown")
      || (pyLower (qClass q).topic == "topic name here") then
    ["Topic is missing or placeholder"] else []) ++
  (if (qClass q).conceptTags.isEmpty || (qClass q).conceptTags.length < 2 then
    ["Insufficient concept tags: " ++ toString (qClass q).conceptTags.length]
   else if (qClass q).conceptTags.any (fun t =>
      containsSub (pyLower t) "concept" && !(pyStartsWith (pyLower t) "concept")) then
    ["Placeholder concepts found"]
   else [])

/-- Step-by-step solution checks (lines 129-133). -/
def vErrSteps (q : StructuredQuestion) : List String :=
  if q.stepByStep.isEmpty then ["Missing stepByStep solution"]
  else if q.stepByStep.length < 2 then
    ["Solution too brief: " ++ toString q.stepByStep.length ++ " steps"]
  else []

/-- Function `validate_question_completeness` from `question_validator.py` lines
55-135: required-field errors cause an early `(False, errors)` return;
otherwise all remaining checks run and `(len(errors) == 0, errors)` is
returned. -/
def validate_question_completeness (q : StructuredQuestion) : Bool × List String :=
  if (vErrRequired q).isEmpty then
    ((vErrText q ++ vErrOptions q ++ vErrCorrect q ++ vErrClass q ++ vErrSteps q).isEmpty,
     vErrText q ++ vErrOptions q ++ vErrCorrect q ++ vErrClass q ++ vErrSteps q)
  else (false, vErrRequired q)

/-- A record that violates all four listed rules at once (three options
with a repeated id, `correctOption = "E"`, one concept tag, one step)
while keeping the required fields present. -/
def incompleteQuestion : StructuredQuestion :=
  { id := some "neet_2024_phy_010"
    questionNumber := some 10
    questionText := some "A body moves with uniform velocity; which statement must hold?"
    options := some
      [ { id := "A", text := "No net force", isCorrect := true }
      , { id := "A", text := "Net force forward", isCorrect := false }
      , { id := "C", text := "Net force backward", isCorrect := false } ]
    correctOption := some "E"
    classification := some { chapter := "Laws of Motion", topic := "Equilibrium",
                             conceptTags := ["force"] }
    stepByStep := [⟨"Step 1", "Apply the first law"⟩] }

/-! ### `process_questions_v2.py`: `process_questions_in_batches`

The orchestrator's collaborators are parameters: `validP` is
`is_valid_physics_question` (applied to `q['text']`), `api` is
`call_perplexity_api` for one record (returning the structured record or
`None` once its retries are exhausted).  File writes (`save_batch`,
`save_progress`, `log_failed_question`) become components of an explicit
state.  The loop `for batch_num, i in enumerate(range(start_idx,
len(questions), batch_size)))` is embedded as a fold over exactly that
enumerated index list. -/

/-- A raw question record as consumed by the orchestrator. -/
structure RawQuestion where
  number : Nat
  text : String
deriving Repr, DecidableEq

/-- The persisted progress object (`load_progress` default:
`{'last_completed_batch': -1, 'next_question_index': 0,
'processed_question_ids': []}`). -/
structure ProcessingProgress where
  last_completed_batch : Int
  next_question_index : Nat
  processed_question_ids : List Nat
deriving Repr, DecidableEq

/-- The zero progress state used when no prior state exists or resume is
disabled. -/
def freshProgress : ProcessingProgress :=
  { last_completed_batch := -1, next_question_index := 0, processed_question_ids := [] }

/-- The orchestrator's observable state: progress, the batch files
written by `save_batch` (keyed by `actual_batch_num`), the append-only
failure log (`log_failed_question` entries as (number, reason)), and
`all_results`. -/
structure OrchState where
  progress : ProcessingProgress
  savedBatches : List (Int × List StructuredQuestion)
  failedLog : List (Nat × String)
  allResults : List StructuredQuestion
deriving Repr, DecidableEq

/-- Python `range(start, stop, step)` for a positive step (the source
always passes `batch_size ≥ 1`). -/
def pythonRange (start stop step : Nat) : List Nat :=
  if step = 0 then []
  else (List.range ((stop - start + step - 1) / step)).map (fun k => start + k * step)

/-- The body of the inner `for q in batch` loop of
`process_questions_in_batches` (lines 321-360): skip already-processed
numbers, log invalid records, skip API calls on dry runs, log failed API
calls, log soft validation failures, and append successes to the batch
results, processed ids and `all_results`. -/
def processQuestion (validP : String → Bool)
    (api : RawQuestion → Option StructuredQuestion) (dry_run : Bool)
    (acc : OrchState × List StructuredQuestion) (q : RawQuestion) :
    OrchState × List StructuredQuestion :=
  let st := acc.1
  let batch_results := acc.2
  if q.number ∈ st.progress.processed_question_ids then acc
  else if validP q.text = false then
    ({ st with failedLog := st.failedLog ++ [(q.number, "Invalid physics content")] },
     batch_results)
  else if dry_run then acc
  else
    match api q with
    | none =>
      ({ st with failedLog := st.failedLog ++ [(q.number, "API call failed")] },
       batch_results)
    | some structured =>
      let st :=
        if (validate_question_completeness structured).1 = false then
          { st with failedLog := st.failedLog ++
            [(q.number,
              "Validation: " ++ (validate_question_completeness structured).2.headD "")] }
        else st
      ({ st with
          progress := { st.progress with
            processed_question_ids := st.progress.processed_question_ids ++ [q.number] },
          allResults := st.allResults ++ [structured] },
       batch_results ++ [structured])

/-- One iteration of the batch loop (lines 311-370): compute
`actual_batch_num`, process the batch slice, save the batch file when it
is non-empty and not a dry run, then update and persist progress. -/
def commitBatch (validP : String → Bool)
    (api : RawQuestion → Option StructuredQuestion)
    (qs : List RawQuestion) (batch_size : Nat) (dry_run : Bool)
    (st : OrchState) (bni : Nat × Nat) : OrchState :=
  let actual_batch_num : Int := st.progress.last_completed_batch + 1 + bni.1
  let batch := (qs.drop bni.2).take batch_size
  let fold := batch.foldl (processQuestion validP api dry_run) (st, [])
  let st1 := fold.1
  let batch_results := fold.2
  let st2 :=
    if batch_results ≠ [] ∧ dry_run = false then
      { st1 with savedBatches := st1.savedBatches ++ [(actual_batch_num, batch_results)] }
    else st1
  { st2 with progress := { st2.progress with
      last_completed_batch := actual_batch_num,
      next_question_index := min (bni.2 + batch_size) qs.length } }

/-- Function `process_questions_in_batches` from `process_questions_v2.py`
lines 273-381, starting from a given loaded progress state. -/
def process_questions_in_batches (validP : String → Bool)
    (api : RawQuestion → Option StructuredQuestion)
    (qs : List RawQuestion) (batch_size : Nat)
    (progress0 : ProcessingProgress) (dry_run : Bool) : OrchState :=
  ((pythonRange progress0.next_question_index qs.length batch_size).enum).foldl
    (commitBatch validP api qs batch_size dry_run)
    { progress := progress0, savedBatches := [], failedLog := [], allResults := [] }

/-- The structured record with every optional field absent. -/
def emptyStructured : StructuredQuestion :=
  { id := none, questionNumber := none, questionText := none, options := none,
    correctOption := none, classification := none, stepByStep := [] }

/-- Twenty trivially valid input records, numbers 1..20. -/
def c3Questions : List RawQuestion :=
  (List.range 20).map (fun k => { number := k + 1, text := "q" })

/-- A full run over 20 records with batch size 10, fresh progress, every
API call succeeding. -/
def c3Run : OrchState :=
  process_questions_in_batches (fun _ => true) (fun _ => some emptyStructured)
    c3Questions 10 freshProgress false

/-- A fully structured record that passes the completeness validation. -/
def goodStructured : StructuredQuestion :=
  { id := some "neet_2024_phy_001"
    questionNumber := some 1
    questionText :=
      some "A block of mass two kilograms rests on a rough table and stays in equilibrium."
    options := some
      [ { id := "A", text := "Ten newtons", isCorrect := true }
      , { id := "B", text := "Twenty newtons", isCorrect := false }
      , { id := "C", text := "Five newtons", isCorrect := false }
      , { id := "D", text := "Zero newtons", isCorrect := false } ]
    correctOption := some "A"
    classification := some { chapter := "Laws of Motion", topic := "Friction",
                             conceptTags := ["friction", "equilibrium"] }
    stepByStep := [⟨"Step 1", "Draw the free body diagram"⟩,
                   ⟨"Step 2", "Apply the equilibrium conditions"⟩] }

/-- Ten input records, numbers 1..10. -/
def c4Questions : List RawQuestion :=
  (List.range 10).map (fun k => { number := k + 1, text := "t" })

/-- An API oracle that fails permanently on record 5 and succeeds on the
other nine. -/
def c4Api (q : RawQuestion) : Option StructuredQuestion :=
  if q.number == 5 then none else some goodStructured

/-! ### `process_questions_v2.py`: `merge_batches`

`sorted(batches_dir.glob("batch_*.json"))` sorts the zero-padded file
names, i.e. reads the batch files in ascending batch-number order; this
is embedded as an insertion sort on the batch number.  The
deduplication loop (lines 392-400) keeps a `seen_ids` set and appends a
question only when its id is truthy and unseen. -/

/-- Insert one batch into a list sorted by ascending batch number. -/
def insertSorted (x : Int × List StructuredQuestion) :
    List (Int × List StructuredQuestion) → List (Int × List StructuredQuestion)
  | [] => [x]
  | y :: ys => if x.1 < y.1 then x :: y :: ys else y :: insertSorted x ys

/-- The `sorted(...)` of the batch files, by batch number (equals the
lexicographic order of the zero-padded names). -/
def sortByBatchNum (l : List (Int × List StructuredQuestion)) :
    List (Int × List StructuredQuestion) :=
  l.foldr insertSorted []

/-- The dedup loop of `merge_batches`: `if q_id and q_id not in seen_ids`
appends the question and records the id. -/
def mergeLoop : List StructuredQuestion → List String → List StructuredQuestion
  | [], _ => []
  | q :: qs, seen =>
    match q.id with
    | some i =>
      if i ≠ "" ∧ i ∉ seen then q :: mergeLoop qs (i :: seen)
      else mergeLoop qs seen
    | none => mergeLoop qs seen

/-- Function `merge_batches` from `process_questions_v2.py` lines 384-428 (the
question-list assembly; metadata and the non-blocking schema check do
not affect the assembled list). -/
def merge_batches (batches : List (Int × List StructuredQuestion)) :
    List StructuredQuestion :=
  mergeLoop (((sortByBatchNum batches).map (fun b => b.2)).flatten) []

/-- A minimal structured record with a given id. -/
def idOnly (i : String) (txt : String) : StructuredQuestion :=
  { emptyStructured with id := some i, questionText := some txt }

/-! ### `pdf_extractor.py` lines 154-225 and `pdf_extractor_v3.py`
lines 114-215: per-block answer-marker handling

The regex engines deliver capture tuples; the pure per-match / per-block
processing is embedded with those captures as input.
`extract_physics_questions_improved` matches one combined pattern whose
captures are the number, question text, four option texts and the
answer digit; `extract_physics_questions_with_answers` (v3) matches a
block, a list of option captures and an optional answer digit. -/

/-- One match of the combined question pattern of
`extract_physics_questions_improved` (number, text, four options, and
the digit captured by `Answer\s*\((\d)\)`). -/
structure ImpMatch where
  q_num : Nat
  q_text : String
  opt1 : String
  opt2 : String
  opt3 : String
  opt4 : String
  answer_idx : Nat
deriving Repr, DecidableEq

/-- A question record built by `extract_physics_questions_improved`. -/
structure ImpQuestion where
  number : Nat
  text : String
  options : List (String × String)
  correct_index : Nat
  correct_answer : String
  has_answer : Bool
deriving Repr, DecidableEq

/-- The per-match body of the `for match in matches` loop of
`extract_physics_questions_improved` (lines 173-220): clean the texts,
skip question texts under 20 characters, and skip matches whose answer
digit is outside the `num_to_letter` map (`if not correct_answer:
continue`). -/
def imp_processMatch (m : ImpMatch) : Option ImpQuestion :=
  if (collapseWs m.q_text).length < 20 then none
  else
    match num_to_letter m.answer_idx with
    | none => none
    | some correct_answer =>
      some { number := m.q_num
             text := collapseWs m.q_text
             options := [("A", collapseWs m.opt1), ("B", collapseWs m.opt2),
                         ("C", collapseWs m.opt3), ("D", collapseWs m.opt4)]
             correct_index := m.answer_idx
             correct_answer := correct_answer
             has_answer := true }

/-- Function `extract_physics_questions_improved` over its match list: each match
is processed independently, and a skipped match (`continue`) does not
stop the loop. -/
def extract_physics_questions_improved (ms : List ImpMatch) : List ImpQuestion :=
  ms.filterMap imp_processMatch

/-- One candidate block of `extract_physics_questions_with_answers`:
the question number, the stripped body (`match.group(2).strip()`), the
option captures found in the block span, and the digit of the first
`Answer (d)` occurrence, if any. -/
structure V3Block where
  number : Nat
  body : String
  optionMatches : List (Nat × String)
  answerDigit : Option Nat
deriving Repr, DecidableEq

/-- A question record built by `extract_physics_questions_with_answers`. -/
structure V3Question where
  number : Nat
  options : List (String × String)
  correct_index : Option Nat
  correct_answer : Option String
  has_answer : Bool
deriving Repr, DecidableEq

/-- Python dict assignment `options_dict[k] = v`: overwrite in place or
append a new key. -/
def dictInsert (k v : String) : List (String × String) → List (String × String)
  | [] => [(k, v)]
  | kv :: rest => if kv.1 == k then (k, v) :: rest else kv :: dictInsert k v rest

/-- The `for opt_num, opt_text in option_matches` loop (lines 163-168):
keep only digits in the map and build the options dict. -/
def v3_options_dict (ms : List (Nat × String)) : List (String × String) :=
  ms.foldl (fun d m =>
    match num_to_letter m.1 with
    | some l => dictInsert l (collapseWs (pyStrip m.2)) d
    | none => d) []

/-- Lines 187-195: `correct_answer` is the mapped letter only when the
answer digit is present and within 1..4; otherwise it stays `None`. -/
def v3_correct_answer : Option Nat → Option String
  | some d => if 1 ≤ d ∧ d ≤ 4 then num_to_letter d else none
  | none => none

/-- The per-block body of `extract_physics_questions_with_answers`
(lines 143-205): skip short bodies and blocks without exactly four
option ids; otherwise append the question, with `correct_index` set
whenever an answer marker was found (even out of range) and
`correct_answer`/`has_answer` reflecting only an in-range marker. -/
def v3_processBlock (b : V3Block) : Option V3Question :=
  if b.body.length < 20 then none
  else if (v3_options_dict b.optionMatches).length ≠ 4 then none
  else
    some { number := b.number
           options := v3_options_dict b.optionMatches
           correct_index := b.answerDigit
           correct_answer := v3_correct_answer b.answerDigit
           has_answer := (v3_correct_answer b.answerDigit).isSome }

/-- Function `extract_physics_questions_with_answers` over its block list. -/
def extract_physics_questions_with_answers (bs : List V3Block) : List V3Question :=
  bs.filterMap v3_processBlock

/-- A substantive block whose answer marker digit is 5. -/
def impBadAnswerMatch : ImpMatch :=
  { q_num := 12
    q_text := "What is the escape velocity from the surface of the earth?"
    opt1 := "Eleven", opt2 := "Twelve", opt3 := "Nine", opt4 := "Seven"
    answer_idx := 5 }

/-- The v3 form of the bad-marker block: four recognised options,
`Answer (5)`. -/
def v3BadAnswerBlock : V3Block :=
  { number := 12
    body := "What is the escape velocity from the surface of the earth?"
    optionMatches := [(1, "Eleven"), (2, "Twelve"), (3, "Nine"), (4, "Seven")]
    answerDigit := some 5 }

/-! ### Theorems -/

lemma CostTracker.runCalls_invariants (calls : List (Nat × Nat × Bool)) :
    ∀ t : CostTracker,
      (t.runCalls calls).total_calls = t.total_calls + calls.length ∧
      (t.runCalls calls).successful_calls + (t.runCalls calls).failed_calls
        = t.successful_calls + t.failed_calls + calls.length ∧
      (t.runCalls calls).input_tokens = t.input_tokens + sumInputs calls ∧
      (t.runCalls calls).output_tokens = t.output_tokens + sumOutputs calls := by
  induction calls with
  | nil => intro t; simp [CostTracker.runCalls, sumInputs, sumOutputs]
  | cons c cs ih =>
    intro t
    have h := ih (t.record_call c.1 c.2.1 c.2.2)
    simp only [CostTracker.runCalls, List.foldl_cons] at h ⊢
    refine ⟨?_, ?_, ?_, ?_⟩
    · rw [h.1]; simp [CostTracker.record_call, List.length_cons]; omega
    · rw [h.2.1]; cases hs : c.2.2 <;>
        simp [CostTracker.record_call, hs, List.length_cons] <;> omega
    · rw [h.2.2.1]; simp [CostTracker.record_call, sumInputs]; omega
    · rw [h.2.2.2]; simp [CostTracker.record_call, sumOutputs]; omega

/-- C10: starting from a freshly constructed `CostTracker`, after any
sequence of `record_call` invocations, `total_calls` equals
`successful_calls + failed_calls`, and `input_tokens` / `output_tokens`
each equal the sum of the corresponding arguments across all calls. -/
theorem costTracker_record_call_invariants (calls : List (Nat × Nat × Bool)) :
    (CostTracker.runCalls {} calls).total_calls
        = (CostTracker.runCalls {} calls).successful_calls
          + (CostTracker.runCalls {} calls).failed_calls ∧
    (CostTracker.runCalls {} calls).input_tokens = sumInputs calls ∧
    (CostTracker.runCalls {} calls).output_tokens = sumOutputs calls := by
  have h := CostTracker.runCalls_invariants calls {}
  refine ⟨?_, ?_, ?_⟩
  · rw [h.1, h.2.1]; simp
  · rw [h.2.2.1]; simp
  · rw [h.2.2.2]; simp

/-- C5 counterexample: a two-page document where no page matches any
start pattern, yet `find_section_bounds` does not return
`(0, page_count)`: the second page matches the end pattern `CHEMISTRY`,
so the result is `(0, 1)` rather than `(0, 2)`. -/
theorem find_section_bounds_no_start_cex :
    (["", "CHEMISTRY"].all
      (fun p => SECTION_START_PATTERNS.all (fun m => !(m p)))) = true ∧
    find_section_bounds SECTION_START_PATTERNS SECTION_END_PATTERNS ["", "CHEMISTRY"]
      = (0, 1) ∧
    (1 : Nat) ≠ (["", "CHEMISTRY"] : List String).length := by
  refine ⟨by decide, by decide, by decide⟩

/-- C5 (amended): for every non-empty list of page texts in which no page
matches any section-start pattern AND no page after the first matches any
section-end pattern, `find_section_bounds` returns `start_page = 0` and
`end_page = page_count`.  (The end-pattern condition is forced by the
counterexample: an end match on a later page truncates `end_page`.) -/
theorem find_section_bounds_fail_open (startPats endPats : List (String → Bool))
    (pages : List String)
    (hstart : ∀ p ∈ pages, startPats.any (fun m => m p) = false)
    (hend : ∀ p ∈ pages.drop 1, endPats.any (fun m => m p) = false) :
    find_section_bounds startPats endPats pages = (0, pages.length) := by
  have h1 : pages.findIdx? (fun p => startPats.any (fun m => m p)) = none := by
    rw [List.findIdx?_eq_none_iff]; exact hstart
  have h2 : pages.tail.findIdx? (fun p => endPats.any (fun m => m p)) = none := by
    rw [List.findIdx?_eq_none_iff]
    intro x hx
    exact hend x (by simpa [List.drop_one] using hx)
  simp [find_section_bounds, h1, h2, List.drop_one]

/-- Witness for `find_section_bounds_fail_open` at a concrete document. -/
theorem find_section_bounds_fail_open_witness :
    find_section_bounds SECTION_START_PATTERNS SECTION_END_PATTERNS
      ["intro page", "more text"] = (0, 2) :=
  find_section_bounds_fail_open SECTION_START_PATTERNS SECTION_END_PATTERNS
    ["intro page", "more text"] (by decide) (by decide)

lemma padOptionsGo_spec : ∀ (fuel : Nat) (opts : List ParsedOption),
    4 - opts.length ≤ fuel →
    padOptionsGo fuel opts = opts ++ ((List.range (4 - opts.length)).map
      fun j => padEntry (opts.length + j)) := by
  intro fuel
  induction fuel with
  | zero =>
    intro opts h
    have h4 : 4 - opts.length = 0 := by omega
    simp [padOptionsGo, h4]
  | succ fuel ih =>
    intro opts h
    by_cases hlt : opts.length < 4
    · rw [padOptionsGo, if_pos hlt]
      rw [ih (opts ++ [padEntry opts.length])
        (by simp only [List.length_append, List.length_singleton]; omega)]
      simp only [List.length_append, List.length_singleton]
      have hk : 4 - opts.length = (4 - (opts.length + 1)) + 1 := by omega
      rw [hk, List.range_succ_eq_map, List.map_cons, List.map_map, List.append_assoc,
        List.singleton_append]
      congr 1
      congr 1
      · simp
        intro a _
        congr 1
        omega
    · rw [padOptionsGo, if_neg hlt]
      have h4 : 4 - opts.length = 0 := by omega
      simp [h4]

lemma padOptions_of_le (opts : List ParsedOption) (h : opts.length ≤ 4) :
    padOptions opts = opts ++ ((List.range (4 - opts.length)).map
      fun j => padEntry (opts.length + j)) :=
  padOptionsGo_spec 4 opts (by omega)

lemma padOptions_of_ge (opts : List ParsedOption) (h : 4 ≤ opts.length) :
    padOptions opts = opts := by
  unfold padOptions
  rw [padOptionsGo_spec 4 opts (by omega), Nat.sub_eq_zero_of_le h]
  simp

/-- C9: `parse_options` always returns exactly four entries; when at most
four options are recognised it pads with empty-text entries whose id is
determined by the list position, and the padded ids can repeat letters
(shown on a concrete input recognising only options (2) and (3)). -/
theorem parse_options_spec :
    (∀ ms : List (Nat × String), (parse_options ms).length = 4) ∧
    (∀ ms : List (Nat × String),
      (recognizedOptions ms).length ≤ 4 →
      parse_options ms = recognizedOptions ms ++
        ((List.range (4 - (recognizedOptions ms).length)).map
          fun j => padEntry ((recognizedOptions ms).length + j))) ∧
    (∀ ms : List (Nat × String),
      4 ≤ (recognizedOptions ms).length →
      parse_options ms = (recognizedOptions ms).take 4) ∧
    parse_options [(2, "x"), (3, "y")] =
      [⟨"B", "x"⟩, ⟨"C", "y"⟩, ⟨"C", ""⟩, ⟨"D", ""⟩] ∧
    ¬ ((parse_options [(2, "x"), (3, "y")]).map (fun o => o.id)).Nodup := by
  refine ⟨?_, ?_, ?_, by decide, by decide⟩
  · intro ms
    unfold parse_options
    rcases Nat.lt_or_ge (recognizedOptions ms).length 4 with h | h
    · rw [padOptions_of_le _ (Nat.le_of_lt h)]
      simp
      omega
    · rw [padOptions_of_ge _ h]
      simp
      omega
  · intro ms h
    unfold parse_options
    rw [padOptions_of_le _ h]
    apply List.take_of_length_le
    simp
    omega
  · intro ms h
    unfold parse_options
    rw [padOptions_of_ge _ h]

/-- Witness for `parse_options_spec`: the padding branch at a concrete
match list with one recognised option. -/
theorem parse_options_spec_witness :
    (recognizedOptions [(1, "only")]).length ≤ 4 ∧
    parse_options [(1, "only")] = recognizedOptions [(1, "only")] ++
      ((List.range (4 - (recognizedOptions [(1, "only")]).length)).map
        fun j => { id := (num_to_letter ((recognizedOptions [(1, "only")]).length + 1 + j)).getD "",
                   text := "" }) :=
  ⟨by decide, parse_options_spec.2.1 [(1, "only")] (by decide)⟩

lemma claude_postprocess_correctOption (result : StructuredQuestion) (qnum : Nat)
    (qtext : String) (correct_answer : String) :
    (claude_postprocess result qnum qtext correct_answer).correctOption
      = some correct_answer := by
  by_cases h : result.correctOption = some correct_answer <;>
    simp [claude_postprocess, dictSetdefault, h]

lemma call_claude_go_correctOption (responses : Nat → Option StructuredQuestion)
    (qnum : Nat) (qtext : String) (correct_answer : String) :
    ∀ (remaining attempt : Nat) (r : StructuredQuestion),
      call_claude_go responses qnum qtext correct_answer attempt remaining = some r →
      r.correctOption = some correct_answer := by
  intro remaining
  induction remaining with
  | zero => intro attempt r h; simp [call_claude_go] at h
  | succ remaining ih =>
    intro attempt r h
    rw [call_claude_go] at h
    cases hresp : responses attempt with
    | some x =>
      rw [hresp] at h
      simp only [Option.some.injEq] at h
      rw [← h]
      exact claude_postprocess_correctOption x qnum qtext correct_answer
    | none =>
      rw [hresp] at h
      exact ih (attempt + 1) r h

/-- C1: every `StructuredQuestion` returned by `call_claude_api` for a
question with a known ground-truth answer has `correctOption` equal to
that answer, whatever the parsed service response contained: on a
mismatch the client overwrites `correctOption` before returning. -/
theorem call_claude_api_correctOption (responses : Nat → Option StructuredQuestion)
    (max_retries qnum : Nat) (qtext : String) (correct_answer : String)
    (r : StructuredQuestion)
    (h : call_claude_api responses max_retries qnum qtext correct_answer = some r) :
    r.correctOption = some correct_answer :=
  call_claude_go_correctOption responses qnum qtext correct_answer max_retries 1 r h

/-- Witness for `call_claude_api_correctOption`: a concrete call whose
response disagrees with the PDF answer still returns `correctOption = "A"`. -/
theorem call_claude_api_correctOption_witness :
    call_claude_api (fun _ => some disagreeingResponse) 5 7
        "What is the SI unit of force?" "A"
      = some (claude_postprocess disagreeingResponse 7
          "What is the SI unit of force?" "A") ∧
    (claude_postprocess disagreeingResponse 7
        "What is the SI unit of force?" "A").correctOption = some "A" :=
  ⟨by decide,
   call_claude_api_correctOption (fun _ => some disagreeingResponse) 5 7
     "What is the SI unit of force?" "A"
     (claude_postprocess disagreeingResponse 7 "What is the SI unit of force?" "A")
     (by decide)⟩

/-- C2 counterexample: when the service response already agrees on
`correctOption` but its per-option `isCorrect` flags are inconsistent,
`call_claude_api` returns the record unchanged: the unique flagged
option is "B", not the ground-truth answer "A". -/
theorem call_claude_api_isCorrect_cex :
    call_claude_api (fun _ => some agreeingInconsistentResponse) 5 3
        "Which quantity is a vector?" "A"
      = some agreeingInconsistentResponse ∧
    ((agreeingInconsistentResponse.options.getD []).filter
        (fun o => o.isCorrect)).map (fun o => o.id) = ["B"] := by
  refine ⟨by decide, by decide⟩

/-- C2 (amended): when the parsed response's `correctOption` disagrees
with the ground-truth answer and its option list contains exactly one
entry whose id is that answer, the returned record has exactly one
option flagged correct, namely the one with the ground-truth id; when
the response agrees on `correctOption`, the option flags are returned
unchanged (and may be inconsistent, as the counterexample shows). -/
theorem claude_postprocess_isCorrect (r : StructuredQuestion) (qnum : Nat)
    (qtext : String) (correct_answer : String) :
    (r.correctOption ≠ some correct_answer →
      (r.options.getD []).countP (fun o => o.id == correct_answer) = 1 →
      ((claude_postprocess r qnum qtext correct_answer).options.getD []).countP
          (fun o => o.isCorrect) = 1 ∧
      ((claude_postprocess r qnum qtext correct_answer).options.getD []).all
          (fun o => o.isCorrect == (o.id == correct_answer))) ∧
    (r.correctOption = some correct_answer →
      (claude_postprocess r qnum qtext correct_answer).options = r.options) := by
  constructor
  · intro hne hcount
    unfold claude_postprocess
    rw [if_pos hne]
    cases hopts : r.options with
    | none =>
      simp [hopts] at hcount
    | some l =>
      have hc : List.countP (fun o => o.id == correct_answer) l = 1 := by
        simpa [hopts] using hcount
      constructor
      · simp only [hopts, Option.map, Option.getD_some, List.countP_map]
        simpa [Function.comp] using hc
      · simp [hopts, List.all_eq_true, List.mem_map]
  · intro heq
    unfold claude_postprocess
    rw [if_neg (by simp [heq])]

/-- Witness for `claude_postprocess_isCorrect`: the disagreeing response
gets its flags recomputed so that exactly option "A" is correct. -/
theorem claude_postprocess_isCorrect_witness :
    (disagreeingResponse.correctOption ≠ some "A" ∧
      (disagreeingResponse.options.getD []).countP (fun o => o.id == "A") = 1) ∧
    ((claude_postprocess disagreeingResponse 7 "What is the SI unit of force?"
          "A").options.getD []).countP (fun o => o.isCorrect) = 1 ∧
    ((claude_postprocess disagreeingResponse 7 "What is the SI unit of force?"
          "A").options.getD []).all (fun o => o.isCorrect == (o.id == "A")) :=
  ⟨⟨by decide, by decide⟩,
   (claude_postprocess_isCorrect disagreeingResponse 7 "What is the SI unit of force?"
     "A").1 (by decide) (by decide)⟩

lemma validate_false_of_errors_ne (q : StructuredQuestion)
    (h : vErrText q ++ vErrOptions q ++ vErrCorrect q ++ vErrClass q ++ vErrSteps q ≠ []) :
    (validate_question_completeness q).1 = false := by
  unfold validate_question_completeness
  by_cases hreq : (vErrRequired q).isEmpty
  · rw [if_pos hreq]
    exact Bool.eq_false_iff.mpr (fun hE => h (List.isEmpty_iff.mp hE))
  · rw [if_neg hreq]

lemma validate_false_of_vErrOptions (q : StructuredQuestion)
    (h : vErrOptions q ≠ []) : (validate_question_completeness q).1 = false := by
  apply validate_false_of_errors_ne
  intro hnil
  simp only [List.append_eq_nil] at hnil
  exact h hnil.1.1.1.2

lemma validate_false_of_vErrCorrect (q : StructuredQuestion)
    (h : vErrCorrect q ≠ []) : (validate_question_completeness q).1 = false := by
  apply validate_false_of_errors_ne
  intro hnil
  simp only [List.append_eq_nil] at hnil
  exact h hnil.1.1.2

lemma validate_false_of_vErrClass (q : StructuredQuestion)
    (h : vErrClass q ≠ []) : (validate_question_completeness q).1 = false := by
  apply validate_false_of_errors_ne
  intro hnil
  simp only [List.append_eq_nil] at hnil
  exact h hnil.1.2

lemma validate_false_of_vErrSteps (q : StructuredQuestion)
    (h : vErrSteps q ≠ []) : (validate_question_completeness q).1 = false := by
  apply validate_false_of_errors_ne
  intro hnil
  simp only [List.append_eq_nil] at hnil
  exact h hnil.2

/-- C8: `validate_question_completeness` returns `is_valid` true iff the
reasons list is empty, and each of the listed structural rules forces a
reason: not exactly four options with ids forming {A,B,C,D};
`correctOption` outside {A,B,C,D}; fewer than two concept tags; fewer
than two explanation steps. -/
theorem validate_question_completeness_spec (q : StructuredQuestion) :
    ((validate_question_completeness q).1 = true ↔
      (validate_question_completeness q).2 = []) ∧
    (¬ ((q.options.getD []).length = 4 ∧ idsFormABCD (q.options.getD []) = true) →
      (validate_question_completeness q).1 = false) ∧
    (((match q.correctOption with
      | some c => decide (c ∉ (["A", "B", "C", "D"] : List String))
      | none => true) = true) →
      (validate_question_completeness q).1 = false) ∧
    ((qClass q).conceptTags.length < 2 →
      (validate_question_completeness q).1 = false) ∧
    (q.stepByStep.length < 2 →
      (validate_question_completeness q).1 = false) := by
  refine ⟨?_, ?_, ?_, ?_, ?_⟩
  · unfold validate_question_completeness
    by_cases hreq : (vErrRequired q).isEmpty
    · rw [if_pos hreq]
      exact List.isEmpty_iff
    · rw [if_neg hreq]
      rw [List.isEmpty_iff] at hreq
      simp [hreq]
  · intro h
    apply validate_false_of_vErrOptions
    unfold vErrOptions
    by_cases hlen : (q.options.getD []).length = 4
    · have hids : idsFormABCD (q.options.getD []) = false := by
        rcases Bool.eq_false_or_eq_true (idsFormABCD (q.options.getD [])) with hb | hb
        · exact absurd ⟨hlen, hb⟩ h
        · exact hb
      rw [if_neg (by omega)]
      simp [hids]
    · simp [hlen]
  · intro h
    apply validate_false_of_vErrCorrect
    unfold vErrCorrect
    cases hco : q.correctOption with
    | some c =>
      rw [hco] at h
      have hc : c ∉ (["A", "B", "C", "D"] : List String) := of_decide_eq_true h
      show (if c ∈ (["A", "B", "C", "D"] : List String) then []
        else ["Invalid correctOption: " ++ c]) ≠ []
      rw [if_neg hc]
      simp
    | none => simp
  · intro h
    apply validate_false_of_vErrClass
    unfold vErrClass
    apply List.append_ne_nil_of_right_ne_nil
    rw [if_pos (by simp [h])]
    simp
  · intro h
    apply validate_false_of_vErrSteps
    unfold vErrSteps
    by_cases hempty : q.stepByStep.isEmpty
    · simp [hempty]
    · rw [if_neg hempty, if_pos h]
      simp

/-- Witness for `validate_question_completeness_spec`: all four rule
violations hold on `incompleteQuestion` and the validator rejects it. -/
theorem validate_question_completeness_spec_witness :
    (¬ ((incompleteQuestion.options.getD []).length = 4 ∧
        idsFormABCD (incompleteQuestion.options.getD []) = true)) ∧
    ((match incompleteQuestion.correctOption with
      | some c => decide (c ∉ (["A", "B", "C", "D"] : List String))
      | none => true) = true) ∧
    ((qClass incompleteQuestion).conceptTags.length < 2) ∧
    (incompleteQuestion.stepByStep.length < 2) ∧
    (validate_question_completeness incompleteQuestion).1 = false :=
  ⟨by decide, by decide, by decide, by decide,
   (validate_question_completeness_spec incompleteQuestion).2.1 (by decide)⟩

/-- C3: `actual_batch_num = progress['last_completed_batch'] + 1 +
batch_num` re-reads the progress value mutated at the end of each
iteration, so the second commit sets `last_completed_batch` from 0 to 2:
batch numbers of successive commits are 0, 2 — not consecutive, and the
second commit increments the persisted value by 2, not 1. -/
theorem batch_numbers_not_consecutive :
    c3Run.savedBatches.map (fun b => b.1) = [0, 2] ∧
    c3Run.progress.last_completed_batch = 2 ∧
    ¬ c3Run.savedBatches.map (fun b => b.1) = [0, 1] := by
  refine ⟨by decide, by decide, by decide⟩

lemma processQuestion_fold (validP : String → Bool)
    (api : RawQuestion → Option StructuredQuestion) :
    ∀ (batch : List RawQuestion) (st : OrchState) (brs : List StructuredQuestion),
    (∀ q ∈ batch, validP q.text = true) →
    (∀ q ∈ batch, q.number ∉ st.progress.processed_question_ids) →
    (batch.map (fun q => q.number)).Nodup →
    (∀ q ∈ batch,
      ((api q).map (fun s => (validate_question_completeness s).1)).getD true = true) →
    batch.foldl (processQuestion validP api false) (st, brs) =
      ({ st with
          progress := { st.progress with
            processed_question_ids := st.progress.processed_question_ids ++
              ((batch.filter (fun q => (api q).isSome)).map (fun q => q.number)) },
          failedLog := st.failedLog ++
            ((batch.filter (fun q => (api q).isNone)).map
              (fun q => (q.number, "API call failed"))),
          allResults := st.allResults ++ batch.filterMap api },
       brs ++ batch.filterMap api) := by
  intro batch
  induction batch with
  | nil => intro st brs _ _ _ _; simp
  | cons q batch ih =>
    intro st brs h1 h2 h3 h4
    have hv : validP q.text = true := h1 q (List.mem_cons_self q batch)
    have hq : q.number ∉ st.progress.processed_question_ids :=
      h2 q (List.mem_cons_self q batch)
    rw [List.foldl_cons]
    have h3' : (∀ x ∈ batch, ¬ x.number = q.number) ∧
        (batch.map (fun r => r.number)).Nodup := by simpa using h3
    cases happ : api q with
    | none =>
      have hstep : processQuestion validP api false (st, brs) q =
          ({ st with failedLog := st.failedLog ++ [(q.number, "API call failed")] }, brs) := by
        simp [processQuestion, hq, hv, happ]
      rw [hstep]
      rw [ih ({ st with failedLog := st.failedLog ++ [(q.number, "API call failed")] }) brs
        (fun q' hq' => h1 q' (List.mem_cons_of_mem q hq'))
        (fun q' hq' => h2 q' (List.mem_cons_of_mem q hq'))
        h3'.2
        (fun q' hq' => h4 q' (List.mem_cons_of_mem q hq'))]
      simp [happ, List.filter_cons, List.filterMap_cons, List.append_assoc]
    | some s =>
      have hval : (validate_question_completeness s).1 = true := by
        have := h4 q (List.mem_cons_self q batch)
        rw [happ] at this
        simpa using this
      have hstep : processQuestion validP api false (st, brs) q =
          ({ st with
              progress := { st.progress with
                processed_question_ids := st.progress.processed_question_ids ++ [q.number] },
              allResults := st.allResults ++ [s] },
           brs ++ [s]) := by
        simp [processQuestion, hq, hv, happ, hval]
      rw [hstep]
      rw [ih ({ st with
          progress := { st.progress with
            processed_question_ids := st.progress.processed_question_ids ++ [q.number] },
          allResults := st.allResults ++ [s] })
        (brs ++ [s]) (fun q' hq' => h1 q' (List.mem_cons_of_mem q hq'))
        (fun q' hq' => by
          simp only [List.mem_append, List.mem_singleton]
          rintro (hin | hqn)
          · exact h2 q' (List.mem_cons_of_mem q hq') hin
          · exact h3'.1 q' hq' hqn)
        h3'.2
        (fun q' hq' => h4 q' (List.mem_cons_of_mem q hq'))]
      simp [happ, List.filter_cons, List.filterMap_cons, List.append_assoc]

lemma pythonRange_single (len bs : Nat) (hpos : 0 < len) (hlen : len ≤ bs) :
    pythonRange 0 len bs = [0] := by
  unfold pythonRange
  rw [if_neg (by omega)]
  have hdiv : (len - 0 + bs - 1) / bs = 1 := by
    have := Nat.div_eq_of_lt_le (by omega : 1 * bs ≤ len - 0 + bs - 1)
      (by omega : len - 0 + bs - 1 < (1 + 1) * bs)
    omega
  rw [hdiv]
  have hr1 : List.range 1 = [0] := rfl
  rw [hr1]
  simp

/-- C4: a single batch in which some records fail generation (after the
client exhausted its retries) still commits: the saved batch file holds
exactly the successful records, the failure log gains one "API call
failed" entry per failed record in order, and `next_question_index`
advances past every input index of the batch.  Hypotheses: the records
are valid physics questions with distinct numbers, none previously
processed (fresh progress), the batch covers all of them
(`qs.length ≤ batch_size`), at least one succeeds, and successful
records pass the soft completeness validation. -/
theorem batch_partial_failure_commits (validP : String → Bool)
    (api : RawQuestion → Option StructuredQuestion)
    (qs : List RawQuestion) (bs : Nat)
    (h1 : ∀ q ∈ qs, validP q.text = true)
    (h3 : (qs.map (fun q => q.number)).Nodup)
    (h4 : ∀ q ∈ qs,
      ((api q).map (fun s => (validate_question_completeness s).1)).getD true = true)
    (hpos : 0 < qs.length) (hlen : qs.length ≤ bs)
    (hsucc : qs.filterMap api ≠ []) :
    (process_questions_in_batches validP api qs bs freshProgress false).savedBatches
        = [(0, qs.filterMap api)] ∧
    (process_questions_in_batches validP api qs bs freshProgress false).failedLog
        = (qs.filter (fun q => (api q).isNone)).map
            (fun q => (q.number, "API call failed")) ∧
    (process_questions_in_batches validP api qs bs freshProgress false).progress.next_question_index
        = qs.length := by
  have hrange : pythonRange freshProgress.next_question_index qs.length bs = [0] :=
    pythonRange_single qs.length bs hpos hlen
  unfold process_questions_in_batches
  rw [hrange]
  have henum : ([0] : List Nat).enum = [(0, 0)] := rfl
  rw [henum, List.foldl_cons, List.foldl_nil]
  simp only [commitBatch]
  rw [List.drop_zero, List.take_of_length_le hlen]
  rw [processQuestion_fold validP api qs
    { progress := freshProgress, savedBatches := [], failedLog := [], allResults := [] }
    [] h1 (by intro q _; simp [freshProgress]) h3 h4]
  rw [if_pos ⟨by simpa using hsucc, trivial⟩]
  refine ⟨by simp [freshProgress], by simp [freshProgress], ?_⟩
  simp [freshProgress]
  omega

/-- Witness for `batch_partial_failure_commits`: the ten-record batch
with record 5 failing. -/
theorem batch_partial_failure_commits_witness :
    ((∀ q ∈ c4Questions, (fun _ => true) q.text = true) ∧
     (c4Questions.map (fun q => q.number)).Nodup ∧
     (∀ q ∈ c4Questions,
       ((c4Api q).map (fun s => (validate_question_completeness s).1)).getD true = true) ∧
     0 < c4Questions.length ∧ c4Questions.length ≤ 10 ∧
     c4Questions.filterMap c4Api ≠ []) ∧
    (process_questions_in_batches (fun _ => true) c4Api c4Questions 10
        freshProgress false).savedBatches
      = [(0, c4Questions.filterMap c4Api)] ∧
    (process_questions_in_batches (fun _ => true) c4Api c4Questions 10
        freshProgress false).failedLog
      = (c4Questions.filter (fun q => (c4Api q).isNone)).map
          (fun q => (q.number, "API call failed")) ∧
    (process_questions_in_batches (fun _ => true) c4Api c4Questions 10
        freshProgress false).progress.next_question_index
      = c4Questions.length :=
  ⟨⟨by decide, by decide, by decide, by decide, by decide, by decide⟩,
   batch_partial_failure_commits (fun _ => true) c4Api c4Questions 10
     (by decide) (by decide) (by decide) (by decide) (by decide) (by decide)⟩

lemma mergeLoop_filter (i : String) (hi : i ≠ "") :
    ∀ (qs : List StructuredQuestion) (seen : List String),
      (mergeLoop qs seen).filter (fun q => q.id == some i)
        = if i ∈ seen then []
          else ((qs.filter (fun q => q.id == some i)).take 1) := by
  intro qs
  induction qs with
  | nil => intro seen; simp [mergeLoop]
  | cons q qs ih =>
    intro seen
    cases hid : q.id with
    | none =>
      have hred : mergeLoop (q :: qs) seen = mergeLoop qs seen := by
        rw [mergeLoop, hid]
      have hq : (q.id == some i) = false := by simp [hid]
      rw [hred, ih seen, List.filter_cons, hq]
      simp
    | some j =>
      have hred : mergeLoop (q :: qs) seen
          = if j ≠ "" ∧ j ∉ seen then q :: mergeLoop qs (j :: seen)
            else mergeLoop qs seen := by
        rw [mergeLoop, hid]
      rw [hred]
      by_cases hji : j = i
      · subst hji
        have hq : (q.id == some j) = true := by simp [hid]
        by_cases hin : j ∈ seen
        · rw [if_neg (fun hc => hc.2 hin), ih seen, if_pos hin, if_pos hin]
        · rw [if_pos ⟨hi, hin⟩, if_neg hin]
          rw [List.filter_cons, List.filter_cons, hq]
          rw [ih (j :: seen), if_pos (List.mem_cons_self j seen)]
          simp
      · have hq : (q.id == some i) = false := by simp [hid, hji]
        have hmem : (i ∈ j :: seen) ↔ i ∈ seen := by
          constructor
          · intro hc
            rcases List.mem_cons.mp hc with h | hc'
            · exact absurd h.symm hji
            · exact hc'
          · exact List.mem_cons_of_mem j
        by_cases hcond : j ≠ "" ∧ j ∉ seen
        · rw [if_pos hcond]
          rw [List.filter_cons, hq]
          rw [ih (j :: seen)]
          by_cases hin : i ∈ seen
          · rw [if_pos (hmem.mpr hin), if_pos hin]
            simp
          · rw [if_neg (fun hc => hin (hmem.mp hc)), if_neg hin]
            rw [List.filter_cons, hq]
            simp
        · rw [if_neg hcond, ih seen]
          by_cases hin : i ∈ seen
          · rw [if_pos hin, if_pos hin]
          · rw [if_neg hin, if_neg hin]
            rw [List.filter_cons, hq]
            simp

lemma mem_insertSorted (x z : Int × List StructuredQuestion) :
    ∀ l, z ∈ insertSorted x l ↔ z = x ∨ z ∈ l := by
  intro l
  induction l with
  | nil => simp [insertSorted]
  | cons y ys ih =>
    rw [insertSorted]
    by_cases h : x.1 < y.1
    · rw [if_pos h]
      simp [List.mem_cons]
    · rw [if_neg h]
      simp only [List.mem_cons, ih]
      tauto

lemma insertSorted_pairwise (x : Int × List StructuredQuestion)
    (l : List (Int × List StructuredQuestion))
    (h : l.Pairwise (fun a b => a.1 ≤ b.1)) :
    (insertSorted x l).Pairwise (fun a b => a.1 ≤ b.1) := by
  induction l with
  | nil => simp [insertSorted]
  | cons y ys ih =>
    rw [insertSorted]
    rcases List.pairwise_cons.mp h with ⟨hy, hys⟩
    by_cases hlt : x.1 < y.1
    · rw [if_pos hlt]
      refine List.pairwise_cons.mpr ⟨?_, h⟩
      intro z hz
      rcases List.mem_cons.mp hz with rfl | hz'
      · omega
      · have := hy z hz'
        omega
    · rw [if_neg hlt]
      refine List.pairwise_cons.mpr ⟨?_, ih hys⟩
      intro z hz
      rcases (mem_insertSorted x z ys).mp hz with rfl | hz'
      · omega
      · exact hy z hz'

lemma sortByBatchNum_pairwise (l : List (Int × List StructuredQuestion)) :
    (sortByBatchNum l).Pairwise (fun a b => a.1 ≤ b.1) := by
  induction l with
  | nil => simp [sortByBatchNum]
  | cons x xs ih => exact insertSorted_pairwise x _ ih

/-- C7: the merger processes the committed batches in ascending
batch-number order (the sorted list is pairwise non-decreasing on its
keys), and deduplicates by id with first occurrence winning: for any
truthy id, the merged dataset's entries with that id are exactly the
first entry carrying it in the sorted concatenation — one entry when the
id occurs at all, none otherwise. -/
theorem merge_batches_dedup_spec (batches : List (Int × List StructuredQuestion))
    (i : String) (hi : i ≠ "") :
    (merge_batches batches).filter (fun q => q.id == some i)
      = ((((sortByBatchNum batches).map (fun b => b.2)).flatten).filter
          (fun q => q.id == some i)).take 1 ∧
    ((sortByBatchNum batches).map (fun b => b.1)).Pairwise (fun a b => a ≤ b) := by
  constructor
  · unfold merge_batches
    rw [mergeLoop_filter i hi _ []]
    simp
  · exact List.Pairwise.map (fun b : Int × List StructuredQuestion => b.1)
      (fun a b hab => hab) (sortByBatchNum_pairwise batches)

/-- Witness for `merge_batches_dedup_spec`: the id "dup" appears in both
committed batches (given out of order); the merged dataset keeps exactly
the occurrence from the lower-numbered batch. -/
theorem merge_batches_dedup_spec_witness :
    ("dup" : String) ≠ "" ∧
    (merge_batches [(1, [idOnly "dup" "later"]), (0, [idOnly "dup" "earlier"])]).filter
        (fun q => q.id == some "dup")
      = ((((sortByBatchNum [(1, [idOnly "dup" "later"]),
            (0, [idOnly "dup" "earlier"])]).map (fun b => b.2)).flatten).filter
          (fun q => q.id == some "dup")).take 1 :=
  ⟨by decide,
   (merge_batches_dedup_spec [(1, [idOnly "dup" "later"]), (0, [idOnly "dup" "earlier"])]
     "dup" (by decide)).1⟩

/-- C6 counterexample: in `extract_physics_questions_improved`
(`pdf_extractor.py`), a block whose answer marker digit is outside
{1,2,3,4} is dropped entirely (`continue`), not produced with an absent
ground truth. -/
theorem out_of_range_marker_drops_block_cex :
    20 ≤ (collapseWs impBadAnswerMatch.q_text).length ∧
    imp_processMatch impBadAnswerMatch = none ∧
    extract_physics_questions_improved [impBadAnswerMatch] = [] := by
  refine ⟨by decide, by decide, by decide⟩

/-- C6 (amended): the digit mapping is exactly 1→A, 2→B, 3→C, 4→D and
out-of-range digits map to nothing; in `pdf_extractor_v3.py` an
out-of-range marker leaves the block in the output with `correct_answer`
absent, while in `pdf_extractor.py` the block is dropped; in both
extractors the remaining blocks keep being parsed (a skipped match only
removes itself from the output). -/
theorem out_of_range_marker_spec :
    (num_to_letter 1 = some "A" ∧ num_to_letter 2 = some "B" ∧
     num_to_letter 3 = some "C" ∧ num_to_letter 4 = some "D") ∧
    (∀ d : Nat, ¬ (1 ≤ d ∧ d ≤ 4) → num_to_letter d = none) ∧
    (∀ b : V3Block, ¬ b.body.length < 20 →
      (v3_options_dict b.optionMatches).length = 4 →
      ∀ d, b.answerDigit = some d → ¬ (1 ≤ d ∧ d ≤ 4) →
      v3_processBlock b = some { number := b.number
                                 options := v3_options_dict b.optionMatches
                                 correct_index := some d
                                 correct_answer := none
                                 has_answer := false }) ∧
    (∀ (m : ImpMatch) (rest : List ImpMatch), imp_processMatch m = none →
      extract_physics_questions_improved (m :: rest)
        = extract_physics_questions_improved rest) ∧
    (∀ (b : V3Block) (rest : List V3Block),
      extract_physics_questions_with_answers (b :: rest)
        = (v3_processBlock b).toList ++ extract_physics_questions_with_answers rest) := by
  refine ⟨⟨rfl, rfl, rfl, rfl⟩, ?_, ?_, ?_, ?_⟩
  · intro d hd
    unfold num_to_letter
    rw [if_neg (by omega), if_neg (by omega), if_neg (by omega), if_neg (by omega)]
  · intro b h20 h4d d hd hrange
    unfold v3_processBlock
    rw [if_neg h20, if_neg (by simp [h4d]), hd]
    have hca : v3_correct_answer (some d) = none := by
      show (if 1 ≤ d ∧ d ≤ 4 then num_to_letter d else none) = none
      rw [if_neg hrange]
    rw [hca]
    rfl
  · intro m rest hm
    simp [extract_physics_questions_improved, List.filterMap_cons, hm]
  · intro b rest
    cases h : v3_processBlock b <;>
      simp [extract_physics_questions_with_answers, List.filterMap_cons, h]

/-- Witness for `out_of_range_marker_spec`: the v3 extractor keeps the
bad-marker block with `correct_answer = none`. -/
theorem out_of_range_marker_spec_witness :
    (¬ v3BadAnswerBlock.body.length < 20) ∧
    (v3_options_dict v3BadAnswerBlock.optionMatches).length = 4 ∧
    v3BadAnswerBlock.answerDigit = some 5 ∧
    ¬ ((1 : Nat) ≤ 5 ∧ (5 : Nat) ≤ 4) ∧
    v3_processBlock v3BadAnswerBlock
      = some { number := v3BadAnswerBlock.number
               options := v3_options_dict v3BadAnswerBlock.optionMatches
               correct_index := some 5
               correct_answer := none
               has_answer := false } :=
  ⟨by decide, by decide, by decide, by decide,
   out_of_range_marker_spec.2.2.1 v3BadAnswerBlock (by decide) (by decide) 5
     (by decide) (by decide)⟩

end QuestionExtractor
